import Mathlib

/-!
Shallow embedding of the quiz auto-grading pipeline from
src/services/gradingService.js, together with theorems settling the
frozen claims about it. JavaScript numbers are modelled as rationals,
possibly-absent (undefined) values as Option, and the dynamic
Array.isArray check on the two top-level inputs as an Option around the
list. The external LLM is modelled as an oracle mapping the attempt
index to the parsed JSON grading it returns (none = network failure,
timeout or malformed JSON on that attempt).
-/

namespace Grading

/-- JS String.prototype.trim: strip leading and trailing whitespace. -/
def jsTrim (s : String) : String :=
  String.mk (((s.data.dropWhile Char.isWhitespace).reverse.dropWhile Char.isWhitespace).reverse)

/-- JS String.prototype.toUpperCase (ASCII case mapping). -/
def jsToUpper (s : String) : String := String.mk (s.data.map Char.toUpper)

/-- JS String.prototype.toLowerCase (ASCII case mapping). -/
def jsToLower (s : String) : String := String.mk (s.data.map Char.toLower)

/-- JS string coercion of a possibly-undefined string: String(undefined) = "undefined". -/
def jsString : Option String → String
  | none => "undefined"
  | some s => s

/-- JS `x || 1` on a possibly-undefined number: 0 and undefined are falsy. -/
def jsOrOne : Option ℚ → ℚ
  | none => 1
  | some m => if m = 0 then 1 else m

/-- JS `s || dflt` on a possibly-undefined string: "" and undefined are falsy. -/
def jsOrStr (a : Option String) (dflt : String) : String :=
  match a with
  | none => dflt
  | some s => if s = "" then dflt else s

/-- JS `a || b` where both sides are possibly-undefined strings. -/
def jsOrS (a b : Option String) : Option String :=
  match a with
  | none => b
  | some s => if s = "" then b else some s

/-- JS Math.round: round half away from zero coincides with floor(x + 1/2) on the
nonnegative values produced here; JS itself rounds half up for all values. -/
def jsRound (x : ℚ) : ℤ := ⌊x + 1/2⌋

/-- JS `Math.round(x * 100) / 100` (round to 2 decimals). -/
def round2 (x : ℚ) : ℚ := ((jsRound (x * 100) : ℤ) : ℚ) / 100

/-- A quiz question as consumed by the grading service. Absent JS properties
are `none`. -/
structure Question where
  id : Option String := none
  question : Option String := none
  questionText : Option String := none
  type : Option String := none
  options : List String := []
  answer : Option String := none
  marks : Option ℚ := none
  explanation : Option String := none
deriving DecidableEq, Repr

/-- Result of grading one question (the object returned by gradeMCQ,
_gradeWithSimilarity or _gradeWithAI). -/
structure Outcome where
  isCorrect : Bool
  marks : ℚ
  explanation : String
  confidence : Option ℚ := none
  similarityScore : Option ℚ := none
  keyPointsFound : List String := []
  keyPointsMissing : List String := []
deriving DecidableEq, Repr

/-- Grading configuration (GradingService.config). -/
structure Config where
  maxRetries : Nat := 3
  timeout : Nat := 30000
  fallbackSimilarityThreshold : ℚ := 7/10
  partialCreditThreshold : ℚ := 2/5
  maxTokens : Nat := 1000
deriving DecidableEq, Repr

/-- The service's configuration as constructed: maxRetries 3, thresholds 0.7 / 0.4. -/
def config : Config := {}

/-- normalized.match(/^([A-D])/): the leading character when it is one of A..D. -/
def leadingLetterAD (s : String) : Option Char :=
  match s.data with
  | [] => none
  | c :: _ => if c = 'A' ∨ c = 'B' ∨ c = 'C' ∨ c = 'D' then some c else none

/-- normalized.match(/^(\d+)/): the maximal leading run of decimal digits. -/
def leadingDigits (s : String) : Option String :=
  let ds := s.data.takeWhile Char.isDigit
  if ds = [] then none else some (String.mk ds)

/-- _normalizeMCQAnswer: falsy answers map to "", otherwise trim + uppercase,
then take the leading A-D letter, else the leading digit run, else the whole
normalized string. -/
def normalizeMCQAnswer (answer : Option String) : String :=
  match answer with
  | none => ""
  | some a =>
    if a = "" then ""
    else
      let normalized := jsToUpper (jsTrim a)
      match leadingLetterAD normalized with
      | some c => String.mk [c]
      | none =>
        match leadingDigits normalized with
        | some ds => ds
        | none => normalized

/-- gradeMCQ: exact equality of normalized answers; full marks (default 1) or 0. -/
def gradeMCQ (q : Question) (studentAnswer : String) : Outcome :=
  let normalizedStudent := normalizeMCQAnswer (some studentAnswer)
  let normalizedCorrect := normalizeMCQAnswer q.answer
  let isCorrect := normalizedStudent = normalizedCorrect
  { isCorrect := isCorrect
    marks := if isCorrect then jsOrOne q.marks else 0
    explanation :=
      if isCorrect then "Correct answer selected."
      else "Incorrect. Expected: " ++ jsString q.answer ++ ", Got: " ++ studentAnswer }

/-- JS String.prototype.split(/\s+/) as a state machine over the character
list: `cur` is the current field (reversed), the flag is true while inside a
whitespace separator run. A field is emitted when a run starts; a run that
reaches the end of the string yields a trailing empty field, as JS split does. -/
def splitWSAux : List Char → List Char → Bool → List String
  | [], cur, false => [String.mk cur.reverse]
  | [], _, true => [""]
  | c :: cs, cur, false =>
    if c.isWhitespace then String.mk cur.reverse :: splitWSAux cs [] true
    else splitWSAux cs (c :: cur) false
  | c :: cs, _, true =>
    if c.isWhitespace then splitWSAux cs [] true
    else splitWSAux cs [c] false

/-- JS `s.split(/\s+/)`: fields between maximal whitespace runs, with an empty
leading/trailing field when the string starts/ends with whitespace. -/
def jsSplitWS (s : String) : List String := splitWSAux s.data [] false

/-- JS Set.prototype.has, as a boolean on the set's element list. -/
def strMem (x : String) : List String → Bool
  | [] => false
  | y :: ys => if x = y then true else strMem x ys

/-- `new Set(l)` keeps the first occurrence of each element, in order; `seen`
is the accumulator (reversed). -/
def jsSetAux : List String → List String → List String
  | [], seen => seen.reverse
  | x :: xs, seen => if strMem x seen then jsSetAux xs seen else jsSetAux xs (x :: seen)

/-- The elements of JS `new Set(l)`, in iteration order. -/
def jsSet (l : List String) : List String := jsSetAux l []

/-- The general word-overlap formula of _calculateSimilarity (the lines after
its two early-return guards), stated on its own so the guards can be compared
against it: word sets of the lowercased whitespace-split inputs, then
|intersection| / |union| with a zero-union guard. -/
def jaccardWords (str1 str2 : String) : ℚ :=
  let words1 := jsSet (jsSplitWS (jsToLower str1))
  let words2 := jsSet (jsSplitWS (jsToLower str2))
  let intersection := jsSet (words1.filter (fun word => strMem word words2))
  let union := jsSet (words1 ++ words2)
  if 0 < union.length then ((intersection.length : ℚ)) / ((union.length : ℚ)) else 0

/-- _calculateSimilarity: 0 when either input is falsy; otherwise the
"longer string empty" guard, then word-set Jaccard similarity of the
lowercased whitespace-split words. -/
def calculateSimilarity (str1 str2 : String) : ℚ :=
  if str1 = "" ∨ str2 = "" then 0
  else
    let longer := if str1.length > str2.length then str1 else str2
    if longer.length = 0 then 1
    else jaccardWords str1 str2

/-- _gradeWithSimilarity: full marks at or above the 0.7 threshold, half marks
at or above the 0.4 threshold, else zero. -/
def gradeWithSimilarity (cfg : Config) (q : Question) (studentAnswer : String) : Outcome :=
  let similarity := calculateSimilarity (jsToLower (jsString q.answer)) (jsToLower studentAnswer)
  let maxMarks := jsOrOne q.marks
  if cfg.fallbackSimilarityThreshold ≤ similarity then
    { isCorrect := true
      marks := maxMarks
      explanation := "Answer closely matches expected response."
      confidence := some similarity
      similarityScore := some similarity }
  else if cfg.partialCreditThreshold ≤ similarity then
    { isCorrect := false
      marks := maxMarks * (1/2)
      explanation := "Partially correct answer."
      confidence := some similarity
      similarityScore := some similarity }
  else
    { isCorrect := false
      marks := 0
      explanation := "Answer does not match expected response."
      confidence := some similarity
      similarityScore := some similarity }

/-- The JSON object parsed from one model response. Fields of the wrong
dynamic type are conflated with absent ones (`none`): _validateAIGrading
treats both identically. -/
structure AIGrading where
  isCorrect : Option Bool := none
  marks : Option ℚ := none
  confidence : Option ℚ := none
  feedback : Option String := none
  keyPointsFound : Option (List String) := none
  keyPointsMissing : Option (List String) := none
deriving DecidableEq, Repr

/-- _validateAIGrading: isCorrect must be a boolean, marks a number in
[0, maxMarks], feedback a truthy string. -/
def validateAIGrading (grading : AIGrading) (maxMarks : ℚ) : Bool :=
  match grading.isCorrect, grading.marks, grading.feedback with
  | some _, some m, some f => decide (0 ≤ m) && decide (m ≤ maxMarks) && !(f = "")
  | _, _, _ => false

/-- The result object _gradeWithAI builds from a validated model grading:
marks clamped to the question maximum, falsy feedback/confidence defaulted. -/
def aiSuccess (grading : AIGrading) (q : Question) : Outcome :=
  { isCorrect := grading.isCorrect.getD false
    marks := min (grading.marks.getD 0) (jsOrOne q.marks)
    explanation :=
      match grading.feedback with
      | none => "AI-graded response"
      | some f => if f = "" then "AI-graded response" else f
    confidence := some
      (match grading.confidence with
       | none => 1/2
       | some c => if c = 0 then 1/2 else c)
    keyPointsFound := grading.keyPointsFound.getD []
    keyPointsMissing := grading.keyPointsMissing.getD [] }

/-- The retry loop of _gradeWithAI. `attempt n` is what the external model
produces on the invocation with retryCount = n (none: any failure up to and
including JSON parsing). A parsed grading that fails _validateAIGrading is
also a failed attempt. `retriesLeft` is maxRetries - retryCount, so the
source's `retryCount < maxRetries` test is `retriesLeft ≠ 0`. Returns the
final outcome (none after exhaustion) and the number of model invocations. -/
def gradeWithAIGo (attempt : Nat → Option AIGrading) (q : Question) :
    Nat → Nat → Option Outcome × Nat
  | retriesLeft, retryCount =>
    let tried : Option Outcome :=
      match attempt retryCount with
      | none => none
      | some grading =>
        if validateAIGrading grading (jsOrOne q.marks) then some (aiSuccess grading q)
        else none
    match tried with
    | some o => (some o, 1)
    | none =>
      match retriesLeft with
      | 0 => (none, 1)
      | n + 1 =>
        let r := gradeWithAIGo attempt q n (retryCount + 1)
        (r.1, r.2 + 1)

/-- _gradeWithAI entered with retryCount = 0. -/
def gradeWithAI (attempt : Nat → Option AIGrading) (q : Question) (cfg : Config) :
    Option Outcome × Nat :=
  gradeWithAIGo attempt q cfg.maxRetries 0

/-- What one call of gradeDescriptiveAnswer did: its outcome, how many times
the external model was invoked, and whether the similarity fallback ran. -/
structure DescriptiveRun where
  outcome : Outcome
  aiInvocations : Nat
  usedSimilarity : Bool
deriving DecidableEq, Repr

/-- gradeDescriptiveAnswer: empty/whitespace-only answers short-circuit; AI is
tried when the service is enabled and options.useAI is not the literal false;
on AI exhaustion or with AI unavailable, the similarity fallback runs. -/
def gradeDescriptiveAnswer (cfg : Config) (isEnabled : Bool) (useAI : Option Bool)
    (attempt : Nat → Option AIGrading) (q : Question) (studentAnswer : String) :
    DescriptiveRun :=
  if studentAnswer = "" ∨ jsTrim studentAnswer = "" then
    { outcome := { isCorrect := false, marks := 0, explanation := "No answer provided." }
      aiInvocations := 0
      usedSimilarity := false }
  else if isEnabled ∧ useAI ≠ some false then
    match gradeWithAI attempt q cfg with
    | (some o, n) => { outcome := o, aiInvocations := n, usedSimilarity := false }
    | (none, n) =>
      { outcome := gradeWithSimilarity cfg q studentAnswer
        aiInvocations := n
        usedSimilarity := true }
  else
    { outcome := gradeWithSimilarity cfg q studentAnswer
      aiInvocations := 0
      usedSimilarity := true }

/-- One entry of the gradedAnswers list, as assembled in gradeQuizAttempt. -/
structure GradedAnswer where
  questionId : Option String
  question : Option String
  type : String
  options : List String
  studentAnswer : String
  correctAnswer : Option String
  explanation : String
  marks : ℚ
  isCorrect : Bool
  confidence : Option ℚ := none
  similarityScore : Option ℚ := none
  keyPointsFound : List String := []
  keyPointsMissing : List String := []
deriving DecidableEq, Repr

/-- The gradedAnswer object before any grading result is merged into it
(the literal at the top of the per-question closure). The service reads
`question.id || question._id`; the embedding carries only `id`. -/
def baseGradedAnswer (q : Question) (studentAnswer : String) : GradedAnswer :=
  { questionId := q.id
    question := jsOrS q.question q.questionText
    type := jsOrStr q.type "mcq"
    options := q.options
    studentAnswer := studentAnswer
    correctAnswer := q.answer
    explanation := (q.explanation).getD ""
    marks := 0
    isCorrect := false }

/-- Object.assign(gradedAnswer, gradingResult): overwrite the grading fields. -/
def assignOutcome (g : GradedAnswer) (o : Outcome) : GradedAnswer :=
  { g with
    isCorrect := o.isCorrect
    marks := o.marks
    explanation := o.explanation
    confidence := o.confidence
    similarityScore := o.similarityScore
    keyPointsFound := o.keyPointsFound
    keyPointsMissing := o.keyPointsMissing }

/-- The catch branch of the per-question closure: zero marks and a manual
review note, leaving the rest of the entry intact. -/
def failedEntry (g : GradedAnswer) : GradedAnswer :=
  { g with
    marks := 0
    isCorrect := false
    explanation := "Auto-grading failed. Manual review required." }

/-- The per-question closure of gradeQuizAttempt: build the base entry, run
the per-question grading step (abstracted as `gradeOne`, which may throw), and
either merge its result or substitute the manual-review placeholder. -/
def gradeOneEntry (gradeOne : Nat → Question → String → Except Unit Outcome)
    (i : Nat) (q : Question) (a : String) : GradedAnswer :=
  let base := baseGradedAnswer q a
  match gradeOne i q a with
  | Except.ok o => assignOutcome base o
  | Except.error _ => failedEntry base

/-- The per-question map of gradeQuizAttempt over positionally aligned
questions and answers, carrying the running index. -/
def gradeEntries (gradeOne : Nat → Question → String → Except Unit Outcome) :
    Nat → List Question → List String → List GradedAnswer
  | _, [], _ => []
  | _, _ :: _, [] => []
  | i, q :: qs, a :: rest => gradeOneEntry gradeOne i q a :: gradeEntries gradeOne (i + 1) qs rest

/-- The value gradeQuizAttempt resolves with. -/
structure GradingResult where
  success : Bool
  gradedAnswers : List GradedAnswer
  totalMarks : ℚ
  maxMarks : ℚ
  percentage : ℚ
  totalQuestions : Nat
deriving DecidableEq, Repr

/-- gradeQuizAttempt. A non-array argument is `none` (the Array.isArray
checks); per-question failures are absorbed by gradeOneEntry, so every
per-question promise fulfills and the allSettled rejected branch is never
taken. The thrown validation errors are rethrown by the outer catch as
`Grading failed: ...`. -/
def gradeQuizAttempt (gradeOne : Nat → Question → String → Except Unit Outcome)
    (questions : Option (List Question)) (studentAnswers : Option (List String)) :
    Except String GradingResult :=
  match questions, studentAnswers with
  | some qs, some answers =>
    if qs.length = answers.length then
      let entries := gradeEntries gradeOne 0 qs answers
      let totalMarks := entries.foldl (fun s e => s + e.marks) 0
      let maxMarks := qs.foldl (fun s q => s + jsOrOne q.marks) 0
      let percentage := if 0 < maxMarks then totalMarks / maxMarks * 100 else 0
      Except.ok
        { success := true
          gradedAnswers := entries
          totalMarks := round2 totalMarks
          maxMarks := maxMarks
          percentage := round2 percentage
          totalQuestions := qs.length }
    else Except.error "Grading failed: Questions and answers arrays must have the same length"
  | _, _ => Except.error "Grading failed: Questions and studentAnswers must be arrays"

/-- The concrete per-question dispatch of gradeQuizAttempt: mcq and
multiple-choice go to gradeMCQ, short-answer and descriptive to
gradeDescriptiveAnswer, anything else to gradeMCQ. Total, hence wrapped in
Except.ok: in the embedding the catch branch is reachable only through the
abstract `gradeOne` parameter. -/
def dispatchGrade (cfg : Config) (isEnabled : Bool) (useAI : Option Bool)
    (attempt : Nat → Option AIGrading) (q : Question) (studentAnswer : String) :
    Except Unit Outcome :=
  Except.ok
    (if q.type = some "mcq" ∨ q.type = some "multiple-choice" then
      gradeMCQ q studentAnswer
    else if q.type = some "short-answer" ∨ q.type = some "descriptive" then
      (gradeDescriptiveAnswer cfg isEnabled useAI attempt q studentAnswer).outcome
    else gradeMCQ q studentAnswer)

theorem gradeEntries_length (g : Nat → Question → String → Except Unit Outcome)
    (qs : List Question) :
    ∀ (i : Nat) (rest : List String), qs.length = rest.length →
      (gradeEntries g i qs rest).length = qs.length := by
  induction qs with
  | nil => intro i rest _; rfl
  | cons q qs ih =>
    intro i rest h
    cases rest with
    | nil => exact absurd h (by simp)
    | cons a rest =>
      have := ih (i + 1) rest (by simpa using h)
      simp [gradeEntries, this]

theorem gradeEntries_get (g : Nat → Question → String → Except Unit Outcome)
    (qs : List Question) :
    ∀ (i : Nat) (rest : List String) (k : Nat)
      (hk : k < (gradeEntries g i qs rest).length)
      (hq : k < qs.length) (ha : k < rest.length),
      (gradeEntries g i qs rest).get ⟨k, hk⟩ =
        gradeOneEntry g (i + k) (qs.get ⟨k, hq⟩) (rest.get ⟨k, ha⟩) := by
  induction qs with
  | nil => intro i rest k hk hq ha; exact absurd hq (by simp)
  | cons q qs ih =>
    intro i rest k hk hq ha
    cases rest with
    | nil => exact absurd ha (by simp)
    | cons a rest =>
      cases k with
      | zero => rfl
      | succ k =>
        have hk2 : k < (gradeEntries g (i + 1) qs rest).length := by
          simpa [gradeEntries] using hk
        have := ih (i + 1) rest k hk2 (by simpa using hq) (by simpa using ha)
        simpa [gradeEntries, Nat.add_assoc, Nat.add_comm 1 k] using this

theorem string_length_pos (s : String) (h : s ≠ "") : 0 < s.length := by
  cases s with
  | mk data =>
    cases data with
    | nil => exact absurd rfl h
    | cons c cs => simp [String.length]

/-- C5: for same-length question and answer arrays the result is a success
whose gradedAnswers list has exactly the questions' length and is aligned
index-by-index with them; a length mismatch or a non-array argument fails the
whole call with a descriptive error. -/
theorem grading_result_shape (gradeOne : Nat → Question → String → Except Unit Outcome)
    (qs : List Question) (answers : List String) :
    (qs.length = answers.length →
      ∃ r, gradeQuizAttempt gradeOne (some qs) (some answers) = Except.ok r ∧
        r.gradedAnswers.length = qs.length ∧
        ∀ (k : Nat) (hk : k < r.gradedAnswers.length) (hq : k < qs.length)
          (ha : k < answers.length),
          r.gradedAnswers.get ⟨k, hk⟩ =
            gradeOneEntry gradeOne k (qs.get ⟨k, hq⟩) (answers.get ⟨k, ha⟩)) ∧
    (qs.length ≠ answers.length →
      gradeQuizAttempt gradeOne (some qs) (some answers) =
        Except.error "Grading failed: Questions and answers arrays must have the same length") ∧
    (∀ x, gradeQuizAttempt gradeOne none x =
        Except.error "Grading failed: Questions and studentAnswers must be arrays") ∧
    (∀ y, gradeQuizAttempt gradeOne y none =
        Except.error "Grading failed: Questions and studentAnswers must be arrays") := by
  refine ⟨fun h => ?_, fun h => ?_, fun x => ?_, fun y => ?_⟩
  · refine ⟨_, by rw [gradeQuizAttempt, if_pos h], ?_, ?_⟩
    · exact gradeEntries_length gradeOne qs 0 answers h
    · intro k hk hq ha
      simpa using gradeEntries_get gradeOne qs 0 answers k (by simpa using hk) hq ha
  · rw [gradeQuizAttempt, if_neg h]
  · cases x <;> rfl
  · cases y <;> rfl

theorem grading_result_shape_witness :
    ([] : List Question).length ≠ (["A"] : List String).length ∧
    gradeQuizAttempt (fun _ _ _ => Except.error ()) (some []) (some ["A"]) =
      Except.error "Grading failed: Questions and answers arrays must have the same length" :=
  ⟨by decide, (grading_result_shape (fun _ _ _ => Except.error ()) [] ["A"]).2.1 (by decide)⟩

/-- C4: when the per-question grading step throws for one question, the batch
still succeeds, that question's entry carries zero marks, isCorrect false and
the manual-review explanation, and every question whose grading step returned
a result gets that result merged into its entry unchanged. -/
theorem per_question_failure_isolated (gradeOne : Nat → Question → String → Except Unit Outcome)
    (qs : List Question) (answers : List String) (h : qs.length = answers.length)
    (k : Nat) (hq : k < qs.length) (ha : k < answers.length)
    (hfail : gradeOne k (qs.get ⟨k, hq⟩) (answers.get ⟨k, ha⟩) = Except.error ()) :
    ∃ r, gradeQuizAttempt gradeOne (some qs) (some answers) = Except.ok r ∧
      r.success = true ∧
      (∃ hk : k < r.gradedAnswers.length,
        (r.gradedAnswers.get ⟨k, hk⟩).marks = 0 ∧
        (r.gradedAnswers.get ⟨k, hk⟩).isCorrect = false ∧
        (r.gradedAnswers.get ⟨k, hk⟩).explanation = "Auto-grading failed. Manual review required.") ∧
      (∀ (j : Nat) (hjq : j < qs.length) (hja : j < answers.length)
        (hj : j < r.gradedAnswers.length) (o : Outcome),
        gradeOne j (qs.get ⟨j, hjq⟩) (answers.get ⟨j, hja⟩) = Except.ok o →
        r.gradedAnswers.get ⟨j, hj⟩ =
          assignOutcome (baseGradedAnswer (qs.get ⟨j, hjq⟩) (answers.get ⟨j, hja⟩)) o) := by
  refine ⟨_, by rw [gradeQuizAttempt, if_pos h], rfl, ?_, ?_⟩
  · have hk : k < (gradeEntries gradeOne 0 qs answers).length := by
      rw [gradeEntries_length gradeOne qs 0 answers h]; exact hq
    refine ⟨hk, ?_⟩
    have hget := gradeEntries_get gradeOne qs 0 answers k hk hq ha
    rw [Nat.zero_add] at hget
    rw [hget]
    simp only [List.get_eq_getElem] at hfail
    simp [gradeOneEntry, hfail, failedEntry]
  · intro j hjq hja hj o hok
    have hget := gradeEntries_get gradeOne qs 0 answers j hj hjq hja
    rw [Nat.zero_add] at hget
    rw [hget]
    simp only [List.get_eq_getElem] at hok
    simp [gradeOneEntry, hok]

theorem per_question_failure_isolated_witness :
    ((([{ marks := some 2 }, { marks := some 3 }] : List Question).length =
        (["x", "y"] : List String).length) ∧
      (fun (i : Nat) (_ : Question) (_ : String) =>
          if i = 0 then Except.error () else Except.ok
            ({ isCorrect := true, marks := 3, explanation := "good" } : Outcome)) 0
          (([{ marks := some 2 }, { marks := some 3 }] : List Question).get ⟨0, by decide⟩)
          ((["x", "y"] : List String).get ⟨0, by decide⟩) = Except.error ()) ∧
    (∃ r, gradeQuizAttempt
        (fun (i : Nat) (_ : Question) (_ : String) =>
          if i = 0 then Except.error () else Except.ok
            ({ isCorrect := true, marks := 3, explanation := "good" } : Outcome))
        (some [{ marks := some 2 }, { marks := some 3 }]) (some ["x", "y"]) = Except.ok r ∧
      r.success = true ∧
      (∃ hk : 0 < r.gradedAnswers.length,
        (r.gradedAnswers.get ⟨0, hk⟩).marks = 0 ∧
        (r.gradedAnswers.get ⟨0, hk⟩).isCorrect = false ∧
        (r.gradedAnswers.get ⟨0, hk⟩).explanation = "Auto-grading failed. Manual review required.") ∧
      (∀ (j : Nat) (hjq : j < ([{ marks := some 2 }, { marks := some 3 }] : List Question).length)
        (hja : j < (["x", "y"] : List String).length)
        (hj : j < r.gradedAnswers.length) (o : Outcome),
        (fun (i : Nat) (_ : Question) (_ : String) =>
          if i = 0 then Except.error () else Except.ok
            ({ isCorrect := true, marks := 3, explanation := "good" } : Outcome)) j
            (([{ marks := some 2 }, { marks := some 3 }] : List Question).get ⟨j, hjq⟩)
            ((["x", "y"] : List String).get ⟨j, hja⟩) = Except.ok o →
        r.gradedAnswers.get ⟨j, hj⟩ =
          assignOutcome (baseGradedAnswer
            (([{ marks := some 2 }, { marks := some 3 }] : List Question).get ⟨j, hjq⟩)
            ((["x", "y"] : List String).get ⟨j, hja⟩)) o)) :=
  ⟨⟨by decide, rfl⟩,
    per_question_failure_isolated _ [{ marks := some 2 }, { marks := some 3 }] ["x", "y"]
      (by decide) 0 (by decide) (by decide) rfl⟩

/-- C6: the result's percentage is the raw mark total over maxMarks times 100,
rounded to 2 decimals, whenever maxMarks is positive, and is 0 whenever
maxMarks is 0; grading empty question and answer lists yields totalMarks 0,
maxMarks 0 and percentage 0. -/
theorem percentage_formula (gradeOne : Nat → Question → String → Except Unit Outcome)
    (qs : List Question) (answers : List String) (h : qs.length = answers.length) :
    (∃ r, gradeQuizAttempt gradeOne (some qs) (some answers) = Except.ok r ∧
      r.maxMarks = qs.foldl (fun s q => s + jsOrOne q.marks) 0 ∧
      (0 < r.maxMarks → r.percentage =
        round2 ((gradeEntries gradeOne 0 qs answers).foldl (fun s e => s + e.marks) 0
          / r.maxMarks * 100)) ∧
      (r.maxMarks = 0 → r.percentage = 0)) ∧
    gradeQuizAttempt gradeOne (some []) (some []) = Except.ok
      { success := true, gradedAnswers := [], totalMarks := 0, maxMarks := 0,
        percentage := 0, totalQuestions := 0 } := by
  constructor
  · refine ⟨_, by rw [gradeQuizAttempt, if_pos h], rfl, fun hpos => ?_, fun hzero => ?_⟩
    · simp only [if_pos hpos]
    · have hz0 : List.foldl (fun s q => s + jsOrOne q.marks) 0 qs = (0 : ℚ) := hzero
      rw [hz0, if_neg (lt_irrefl (0 : ℚ))]
      show round2 0 = 0
      with_unfolding_all decide
  · have h0 : round2 0 = 0 := by with_unfolding_all decide
    simp [gradeQuizAttempt, gradeEntries, h0]

theorem percentage_formula_witness :
    (([] : List Question).length = ([] : List String).length) ∧
    ((∃ r, gradeQuizAttempt (fun _ _ _ => Except.error ()) (some []) (some []) = Except.ok r ∧
      r.maxMarks = ([] : List Question).foldl (fun s q => s + jsOrOne q.marks) 0 ∧
      (0 < r.maxMarks → r.percentage =
        round2 ((gradeEntries (fun _ _ _ => Except.error ()) 0 [] []).foldl
          (fun s e => s + e.marks) 0 / r.maxMarks * 100)) ∧
      (r.maxMarks = 0 → r.percentage = 0)) ∧
    gradeQuizAttempt (fun _ _ _ => Except.error ()) (some []) (some []) = Except.ok
      { success := true, gradedAnswers := [], totalMarks := 0, maxMarks := 0,
        percentage := 0, totalQuestions := 0 }) :=
  ⟨rfl, percentage_formula (fun _ _ _ => Except.error ()) [] [] rfl⟩

/-- C1 counterexample: with maxRetries = 3, a model that fails on every
attempt is invoked 4 times in total before _gradeWithAI gives up (the initial
call plus 3 retries), not 3 as the claim states. -/
theorem retry_always_fail_counterexample :
    gradeWithAI (fun _ => none) {} config = (none, 4) ∧ (4 : Nat) ≠ 3 :=
  ⟨by with_unfolding_all decide, by decide⟩

/-- C1 (amended): with maxRetries = 3, if every attempt fails the call fails
after exactly maxRetries + 1 = 4 total model invocations; if the model fails
twice and then returns a valid grading, the call returns that success having
invoked the model exactly 3 times. -/
theorem retry_invocation_counts (attempt : Nat → Option AIGrading) (q : Question) :
    ((∀ n, attempt n = none) →
      gradeWithAI attempt q config = (none, config.maxRetries + 1)) ∧
    (∀ grading, attempt 0 = none → attempt 1 = none → attempt 2 = some grading →
      validateAIGrading grading (jsOrOne q.marks) = true →
      gradeWithAI attempt q config = (some (aiSuccess grading q), 3)) := by
  constructor
  · intro hfail
    show gradeWithAIGo attempt q 3 0 = (none, 4)
    simp [gradeWithAIGo, hfail 0, hfail 1, hfail 2, hfail 3]
  · intro grading h0 h1 h2 hv
    show gradeWithAIGo attempt q 3 0 = (some (aiSuccess grading q), 3)
    simp [gradeWithAIGo, h0, h1, h2, hv]

theorem retry_invocation_counts_witness :
    ((∀ n : Nat, (fun _ : Nat => (none : Option AIGrading)) n = none) ∧
      gradeWithAI (fun _ => none) {} config = (none, config.maxRetries + 1)) ∧
    (((fun n : Nat => if n < 2 then none else
        some ({ isCorrect := some true, marks := some 1, feedback := some "ok" } : AIGrading)) 0 = none) ∧
      validateAIGrading { isCorrect := some true, marks := some 1, feedback := some "ok" }
        (jsOrOne ({} : Question).marks) = true ∧
      gradeWithAI
        (fun n : Nat => if n < 2 then none else
          some ({ isCorrect := some true, marks := some 1, feedback := some "ok" } : AIGrading))
        {} config =
        (some (aiSuccess { isCorrect := some true, marks := some 1, feedback := some "ok" } {}), 3)) :=
  ⟨⟨fun _ => rfl, (retry_invocation_counts (fun _ => none) {}).1 (fun _ => rfl)⟩,
    ⟨rfl, by with_unfolding_all decide,
      (retry_invocation_counts
        (fun n : Nat => if n < 2 then none else
          some ({ isCorrect := some true, marks := some 1, feedback := some "ok" } : AIGrading))
        {}).2
        { isCorrect := some true, marks := some 1, feedback := some "ok" }
        rfl rfl rfl (by with_unfolding_all decide)⟩⟩

/-- C2: contrary to the claim (and to the comment inside _normalizeMCQAnswer),
"Option A" does not normalize to "A": the leading-letter pattern is anchored
at the start, "OPTION A" starts with O, and the string is returned whole. In
the claimed scenario the student answer "Option B" therefore compares unequal
to the expected "B" and gradeMCQ returns isCorrect false with 0 marks. The
other three normalization examples behave as stated. -/
theorem mcq_option_prefix_not_normalized :
    normalizeMCQAnswer (some "Option A") = "OPTION A" ∧
    normalizeMCQAnswer (some "A") = "A" ∧
    normalizeMCQAnswer (some "a)") = "A" ∧
    normalizeMCQAnswer (some " A ") = "A" ∧
    gradeMCQ { type := some "mcq", answer := some "B", marks := some 2 } "Option B" =
      { isCorrect := false, marks := 0,
        explanation := "Incorrect. Expected: B, Got: Option B" } :=
  ⟨by decide, by decide, by decide, by decide, by with_unfolding_all decide⟩

/-- C3: for a question with positive effective marks (question.marks, with
the service's default of 1 when absent or zero), every grading path stays
within bounds: gradeMCQ and the similarity fallback award marks in
[0, question.marks], and any AI grading that passes validation is clamped
into [0, question.marks]. -/
theorem marks_within_bounds (q : Question) (studentAnswer : String) (grading : AIGrading)
    (hpos : 0 < jsOrOne q.marks) :
    (0 ≤ (gradeMCQ q studentAnswer).marks ∧ (gradeMCQ q studentAnswer).marks ≤ jsOrOne q.marks) ∧
    (0 ≤ (gradeWithSimilarity config q studentAnswer).marks ∧
      (gradeWithSimilarity config q studentAnswer).marks ≤ jsOrOne q.marks) ∧
    (validateAIGrading grading (jsOrOne q.marks) = true →
      0 ≤ (aiSuccess grading q).marks ∧ (aiSuccess grading q).marks ≤ jsOrOne q.marks) := by
  refine ⟨⟨?_, ?_⟩, ?_, ?_⟩
  · simp only [gradeMCQ]
    split
    · exact hpos.le
    · exact le_refl 0
  · simp only [gradeMCQ]
    split
    · exact le_refl _
    · exact hpos.le
  · simp only [gradeWithSimilarity]
    split
    · exact ⟨hpos.le, le_refl _⟩
    · split
      · constructor
        · nlinarith [hpos]
        · nlinarith [hpos]
      · exact ⟨le_refl 0, hpos.le⟩
  · intro hv
    rcases hb : grading.isCorrect with _ | b
    · simp [validateAIGrading, hb] at hv
    · rcases hm : grading.marks with _ | m
      · simp [validateAIGrading, hb, hm] at hv
      · rcases hf : grading.feedback with _ | f
        · simp [validateAIGrading, hb, hm, hf] at hv
        · simp only [validateAIGrading, hb, hm, hf, Bool.and_eq_true, decide_eq_true_eq,
            Bool.not_eq_true', decide_eq_false_iff_not] at hv
          obtain ⟨⟨h0m, hmM⟩, -⟩ := hv
          constructor
          · simp only [aiSuccess, hm, Option.getD_some]
            exact le_min h0m hpos.le
          · simp only [aiSuccess, hm, Option.getD_some]
            exact min_le_right _ _

theorem marks_within_bounds_witness :
    (0 < jsOrOne ({ marks := some 2 } : Question).marks) ∧
    ((0 ≤ (gradeMCQ { marks := some 2 } "A").marks ∧
        (gradeMCQ { marks := some 2 } "A").marks ≤ jsOrOne ({ marks := some 2 } : Question).marks) ∧
      (0 ≤ (gradeWithSimilarity config { marks := some 2 } "A").marks ∧
        (gradeWithSimilarity config { marks := some 2 } "A").marks ≤
          jsOrOne ({ marks := some 2 } : Question).marks) ∧
      (validateAIGrading { isCorrect := some true, marks := some 1, feedback := some "ok" }
          (jsOrOne ({ marks := some 2 } : Question).marks) = true →
        0 ≤ (aiSuccess { isCorrect := some true, marks := some 1, feedback := some "ok" }
            { marks := some 2 }).marks ∧
          (aiSuccess { isCorrect := some true, marks := some 1, feedback := some "ok" }
            { marks := some 2 }).marks ≤ jsOrOne ({ marks := some 2 } : Question).marks)) :=
  ⟨by with_unfolding_all decide,
    marks_within_bounds { marks := some 2 } "A"
      { isCorrect := some true, marks := some 1, feedback := some "ok" }
      (by with_unfolding_all decide)⟩

/-- C7: an empty or whitespace-only student answer makes
gradeDescriptiveAnswer return the fixed no-answer result immediately, with no
model invocation and no similarity fallback, for every question, service
state and options. -/
theorem empty_answer_short_circuit (cfg : Config) (isEnabled : Bool) (useAI : Option Bool)
    (attempt : Nat → Option AIGrading) (q : Question) (studentAnswer : String)
    (h : jsTrim studentAnswer = "") :
    gradeDescriptiveAnswer cfg isEnabled useAI attempt q studentAnswer =
      { outcome := { isCorrect := false, marks := 0, explanation := "No answer provided." }
        aiInvocations := 0
        usedSimilarity := false } := by
  rw [gradeDescriptiveAnswer, if_pos (Or.inr h)]

theorem empty_answer_short_circuit_witness :
    jsTrim "   " = "" ∧
    gradeDescriptiveAnswer config true none (fun _ => none) {} "   " =
      { outcome := { isCorrect := false, marks := 0, explanation := "No answer provided." }
        aiInvocations := 0
        usedSimilarity := false } :=
  ⟨by decide, empty_answer_short_circuit config true none (fun _ => none) {} "   " (by decide)⟩

/-- C8: under the similarity fallback, similarity at least 0.7 awards the full
effective question marks and marks the answer correct; similarity in
[0.4, 0.7) awards exactly half the marks and leaves it incorrect; similarity
below 0.4 awards zero; and in the claimed scenario (expected "Paris is the
capital of France", marks 5, AI disabled, answer "paris capital france") the
similarity is 1/2 and the grade is 2.5 marks, incorrect. -/
theorem similarity_threshold_grading (q : Question) (studentAnswer : String) (s : ℚ)
    (hs : s = calculateSimilarity (jsToLower (jsString q.answer)) (jsToLower studentAnswer)) :
    ((7/10 : ℚ) ≤ s →
      (gradeWithSimilarity config q studentAnswer).marks = jsOrOne q.marks ∧
      (gradeWithSimilarity config q studentAnswer).isCorrect = true) ∧
    ((2/5 : ℚ) ≤ s → s < 7/10 →
      (gradeWithSimilarity config q studentAnswer).marks = jsOrOne q.marks * (1/2) ∧
      (gradeWithSimilarity config q studentAnswer).isCorrect = false) ∧
    (s < 2/5 →
      (gradeWithSimilarity config q studentAnswer).marks = 0 ∧
      (gradeWithSimilarity config q studentAnswer).isCorrect = false) ∧
    gradeDescriptiveAnswer config false none (fun _ => none)
        { type := some "descriptive", answer := some "Paris is the capital of France",
          marks := some 5 }
        "paris capital france" =
      { outcome :=
          { isCorrect := false
            marks := 5/2
            explanation := "Partially correct answer."
            confidence := some (1/2)
            similarityScore := some (1/2) }
        aiInvocations := 0
        usedSimilarity := true } := by
  subst hs
  refine ⟨fun h7 => ?_, fun h4 h7 => ?_, fun h4 => ?_, ?_⟩
  · simp only [gradeWithSimilarity, config]
    rw [if_pos h7]
    exact ⟨rfl, rfl⟩
  · simp only [gradeWithSimilarity, config]
    rw [if_neg (not_le.mpr h7), if_pos h4]
    exact ⟨rfl, rfl⟩
  · have h7 : ¬ ((7:ℚ)/10 ≤ calculateSimilarity (jsToLower (jsString q.answer))
        (jsToLower studentAnswer)) :=
      not_le.mpr (lt_of_lt_of_le h4 (by norm_num))
    simp only [gradeWithSimilarity, config]
    rw [if_neg h7, if_neg (not_le.mpr h4)]
    exact ⟨rfl, rfl⟩
  · with_unfolding_all decide

theorem similarity_threshold_grading_witness :
    ((2/5 : ℚ) ≤ calculateSimilarity
        (jsToLower (jsString (some "Paris is the capital of France")))
        (jsToLower "paris capital france") ∧
      calculateSimilarity (jsToLower (jsString (some "Paris is the capital of France")))
        (jsToLower "paris capital france") < 7/10) ∧
    ((gradeWithSimilarity config
        { type := some "descriptive", answer := some "Paris is the capital of France",
          marks := some 5 } "paris capital france").marks =
      jsOrOne ({ type := some "descriptive"
                 answer := some "Paris is the capital of France"
                 marks := some 5 } : Question).marks * (1/2) ∧
      (gradeWithSimilarity config
        { type := some "descriptive", answer := some "Paris is the capital of France",
          marks := some 5 } "paris capital france").isCorrect = false) :=
  ⟨⟨by with_unfolding_all decide, by with_unfolding_all decide⟩,
    (similarity_threshold_grading
      { type := some "descriptive", answer := some "Paris is the capital of France",
        marks := some 5 }
      "paris capital france" _ rfl).2.1
      (by with_unfolding_all decide) (by with_unfolding_all decide)⟩

/-- C9: _calculateSimilarity returns 0 whenever either input is empty
(including both empty), and on two nonempty inputs it always takes the
general word-overlap formula, so the "longer string has zero length returns
1.0" branch is unreachable for every input. -/
theorem empty_similarity_zero (a b : String) :
    ((a = "" ∨ b = "") → calculateSimilarity a b = 0) ∧
    calculateSimilarity "" "" = 0 ∧
    (a ≠ "" → b ≠ "" → calculateSimilarity a b = jaccardWords a b) := by
  refine ⟨fun h => ?_, by with_unfolding_all decide, fun ha hb => ?_⟩
  · rw [calculateSimilarity, if_pos h]
  · have hor : ¬ (a = "" ∨ b = "") := by
      rintro (h | h)
      · exact ha h
      · exact hb h
    have hlen : ¬ ((if a.length > b.length then a else b).length = 0) := by
      split
      · exact Nat.pos_iff_ne_zero.mp (string_length_pos a ha)
      · exact Nat.pos_iff_ne_zero.mp (string_length_pos b hb)
    rw [calculateSimilarity, if_neg hor]
    show (if (if a.length > b.length then a else b).length = 0 then 1 else jaccardWords a b) =
      jaccardWords a b
    rw [if_neg hlen]

theorem empty_similarity_zero_witness :
    (("" : String) = "" ∨ ("x" : String) = "") ∧
    calculateSimilarity "" "x" = 0 ∧
    (("y" : String) ≠ "" ∧ ("x" : String) ≠ "" ∧
      calculateSimilarity "y" "x" = jaccardWords "y" "x") :=
  ⟨Or.inl rfl, (empty_similarity_zero "" "x").1 (Or.inl rfl),
    by decide, by decide, (empty_similarity_zero "y" "x").2.2 (by decide) (by decide)⟩

/-- C10: when the expected answer is absent or the empty string, an empty
student answer normalizes to the same empty string, so gradeMCQ marks it
correct and awards the full effective question marks (question.marks when
present and nonzero, else the default 1). -/
theorem empty_mcq_full_marks (q : Question) (h : q.answer = none ∨ q.answer = some "") :
    (gradeMCQ q "").isCorrect = true ∧
    (gradeMCQ q "").marks = jsOrOne q.marks ∧
    ∀ m, q.marks = some m → m ≠ 0 → (gradeMCQ q "").marks = m := by
  have hn : normalizeMCQAnswer q.answer = "" := by
    rcases h with h | h <;> rw [h] <;> rfl
  have hc : normalizeMCQAnswer (some "") = "" := rfl
  refine ⟨?_, ?_, ?_⟩
  · simp [gradeMCQ, hn, hc]
  · simp [gradeMCQ, hn, hc]
  · intro m hm hm0
    simp [gradeMCQ, hn, hc, jsOrOne, hm, hm0]

theorem empty_mcq_full_marks_witness :
    (({ answer := some "", marks := some 3 } : Question).answer = none ∨
      ({ answer := some "", marks := some 3 } : Question).answer = some "") ∧
    ((gradeMCQ { answer := some "", marks := some 3 } "").isCorrect = true ∧
      (gradeMCQ { answer := some "", marks := some 3 } "").marks =
        jsOrOne ({ answer := some "", marks := some 3 } : Question).marks ∧
      ∀ m, ({ answer := some "", marks := some 3 } : Question).marks = some m → m ≠ 0 →
        (gradeMCQ { answer := some "", marks := some 3 } "").marks = m) :=
  ⟨Or.inr rfl, empty_mcq_full_marks { answer := some "", marks := some 3 } (Or.inr rfl)⟩

end Grading
